import Mathlib

/-!
Verification development for the UnifiedDBManager persistence layer
(src/utils/UnifiedDBManager.js) and the API-configuration manager
(src/utils/apiConfigManager.js).

The JavaScript code is shallowly embedded: JSON-like documents become the
inductive type JVal, the live IndexedDB database becomes the explicit state
DBState (an association list from store name to the store's keyed records),
and asynchronous methods become pure state-passing functions returning
Except when the original promise can reject.  Engine-level transaction
failures, which the code surfaces verbatim, are modelled by an explicit
fault oracle (Faults); noFaults is the fault-free engine.

Modelling restrictions (documented where they matter): JS numbers are
modelled as integers (every schema version and key in the repository is an
integer), IndexedDB keys are modelled as numbers and strings (the only key
kinds the repository uses), and relational comparisons on version fields
are modelled for numeric operands (a non-numeric operand compares false,
as JS does for undefined).
-/

/-- Shape information of a stored blob payload after an IndexedDB round
trip: whether it is still a genuine Blob instance, whether size and type
metadata survived, and whether the binary-capability methods (stream or
arrayBuffer) are still present. -/
structure BlobInfo where
  isRealBlob : Bool
  hasSize : Bool
  hasType : Bool
  hasMethods : Bool
  mime : String
  byteSize : Int
deriving DecidableEq, Repr

/-- JSON-like JavaScript values: null, booleans, numbers (integer-valued),
strings, arrays, objects (ordered field lists, unique keys in any value
that denotes a real JS object), and blob payloads. -/
inductive JVal where
  | null
  | boolean (b : Bool)
  | num (n : Int)
  | str (s : String)
  | arr (elems : List JVal)
  | obj (fields : List (String × JVal))
  | blobv (info : BlobInfo)

/-- Lookup in an ordered association list with string keys (first match). -/
def alistLookup {α : Type} : List (String × α) → String → Option α
  | [], _ => none
  | (k, v) :: rest, key => if k = key then some v else alistLookup rest key

/-- JS property assignment on an ordered field list: an existing key keeps
its position and gets the new value, a fresh key is appended. -/
def alistSet {α : Type} : List (String × α) → String → α → List (String × α)
  | [], key, v => [(key, v)]
  | (k, w) :: rest, key, v =>
      if k = key then (k, v) :: rest else (k, w) :: alistSet rest key v

/-- JS property deletion on an ordered field list. -/
def alistRemove {α : Type} : List (String × α) → String → List (String × α)
  | [], _ => []
  | (k, v) :: rest, key =>
      if k = key then alistRemove rest key else (k, v) :: alistRemove rest key

/-- Property read: defined on objects, undefined (none) elsewhere. -/
def JVal.getField : JVal → String → Option JVal
  | .obj fields, key => alistLookup fields key
  | _, _ => none

/-- Property write; on a non-object the model returns the value unchanged
(the embedding only assigns to values it has already matched as objects). -/
def JVal.setField : JVal → String → JVal → JVal
  | .obj fields, key, v => .obj (alistSet fields key v)
  | other, _, _ => other

/-- Property deletion; identity on non-objects. -/
def JVal.removeField : JVal → String → JVal
  | .obj fields, key => .obj (alistRemove fields key)
  | other, _ => other

/-- JS truthiness of a value. -/
def JVal.truthy : JVal → Bool
  | .null => false
  | .boolean b => b
  | .num n => n != 0
  | .str s => s ≠ ""
  | .arr _ => true
  | .obj _ => true
  | .blobv _ => true

/-- Truthiness of a possibly-undefined value (undefined is falsy). -/
def truthyOpt : Option JVal → Bool
  | none => false
  | some v => v.truthy

/-- The JS expression a OR b where a may be undefined: yields a when a is
truthy, else the default b. -/
def jsOr (v : Option JVal) (dflt : JVal) : JVal :=
  match v with
  | some x => if x.truthy then x else dflt
  | none => dflt

mutual

/-- JS string coercion as used in template literals.  Arrays join their
elements with commas, objects print as object Object. -/
def jvalToString : JVal → String
  | .null => "null"
  | .boolean b => if b then "true" else "false"
  | .num n => toString n
  | .str s => s
  | .arr elems => String.intercalate "," (jvalListToString elems)
  | .obj _ => "[object Object]"
  | .blobv _ => "[object Blob]"

/-- String coercions of the elements of an array value. -/
def jvalListToString : List JVal → List String
  | [] => []
  | v :: rest => jvalToString v :: jvalListToString rest

end

/-- String coercion of a possibly-undefined value. -/
def jvalToStringOpt : Option JVal → String
  | none => "undefined"
  | some v => jvalToString v

/-- JS strict equality between two possibly-undefined values, to the extent
exercised by the repository: undefined equals undefined, primitives compare
by value, and two container values read from distinct places of a freshly
parsed snapshot are never reference-identical. -/
def jsStrictEqOpt : Option JVal → Option JVal → Bool
  | none, none => true
  | some .null, some .null => true
  | some (.boolean a), some (.boolean b) => a == b
  | some (.num a), some (.num b) => a == b
  | some (.str a), some (.str b) => a == b
  | _, _ => false

/-- IndexedDB keys as used by this repository: numbers and strings. -/
inductive DBKey where
  | num (n : Int)
  | str (s : String)
deriving DecidableEq

/-- A valid IndexedDB key extracted from a record field; a field value that
is not a number or string is an invalid key (DataError in the engine). -/
def toDBKey : JVal → Option DBKey
  | .num n => some (.num n)
  | .str s => some (.str s)
  | _ => none

/-- Contents of one object store: records with their primary keys, in
insertion order. -/
abbrev StoreRecs : Type := List (DBKey × JVal)

/-- The live database: the contents of the fixed schema's object stores
(an absent entry is an empty store) and the in-memory fileId-to-URL cache
(this.urlCache). -/
structure DBState where
  stores : List (String × StoreRecs)
  urlCache : List (String × String)

/-- The empty database with an empty URL cache. -/
def emptyDB : DBState := ⟨[], []⟩

/-- Contents of a named store. -/
def DBState.getStore (st : DBState) (name : String) : StoreRecs :=
  (alistLookup st.stores name).getD []

/-- Replace the contents of a named store. -/
def DBState.setStore (st : DBState) (name : String) (recs : StoreRecs) :
    DBState :=
  { st with stores := alistSet st.stores name recs }

/-- Lookup of a record by primary key (IDBObjectStore.get). -/
def recsLookup : StoreRecs → DBKey → Option JVal
  | [], _ => none
  | (k, v) :: rest, key => if k = key then some v else recsLookup rest key

/-- Keyed record replacement or insertion. -/
def recsPut : StoreRecs → DBKey → JVal → StoreRecs
  | [], key, v => [(key, v)]
  | (k, w) :: rest, key, v =>
      if k = key then (k, v) :: rest else (k, w) :: recsPut rest key v

/-- Keyed record deletion; succeeds (as a no-op) on an absent key, exactly
as IDBObjectStore.delete does. -/
def recsDelete : StoreRecs → DBKey → StoreRecs
  | [], _ => []
  | (k, v) :: rest, key =>
      if k = key then recsDelete rest key else (k, v) :: recsDelete rest key

/-- The object stores declared in this.stores of the UnifiedDBManager
constructor, with their keyPath. -/
def storeKeyPaths : List (String × String) :=
  [("songs", "id"), ("contacts", "id"), ("apiSettings", "id"),
   ("emojis", "id"), ("emojiImages", "tag"), ("backgrounds", "id"),
   ("userProfile", "id"), ("moments", "id"), ("weiboPosts", "id"),
   ("hashtagCache", "id"), ("characterMemories", "contactId"),
   ("conversationCounters", "id"), ("globalMemory", "id"),
   ("memoryProcessedIndex", "contactId"), ("fileStorage", "fileId"),
   ("fileReferences", "referenceId"), ("themeConfig", "type"),
   ("imageUsageMetadata", "fileId")]

/-- Stores declared with autoIncrement true. -/
def autoIncrementStores : List String := ["songs", "weiboPosts"]

/-- The database's objectStoreNames at schema version 14. -/
def objectStoreNames : List String := storeKeyPaths.map Prod.fst

/-- keyPath of a declared store (only ever consulted for declared stores). -/
def keyPathOf (name : String) : String :=
  (alistLookup storeKeyPaths name).getD ""

/-- autoIncrement flag of a declared store. -/
def isAutoIncrement (name : String) : Bool :=
  autoIncrementStores.contains name

/-- Next generated key of an autoIncrement store: one past the largest
numeric key present. -/
def nextGenKey (recs : StoreRecs) : Int :=
  (recs.foldl (fun m p => match p.1 with
    | .num n => max m n
    | .str _ => m) 0) + 1

/-- Fault oracle standing for the external transactional engine's own
failures, which the code surfaces verbatim.  Each field gives the error
message the engine raises for the given operation, or none for success. -/
structure Faults where
  onPut : String → JVal → Option String
  onDelete : String → DBKey → Option String
  onCursor : String → Option String
  onTx : String → Option String

/-- The fault-free engine. -/
def noFaults : Faults :=
  ⟨fun _ _ => none, fun _ _ => none, fun _ => none, fun _ => none⟩

/-- Keyed upsert into a store as performed by IDBObjectStore.put: the key
comes from the record's keyPath field; a missing key is generated for an
autoIncrement store (and written back into the record) and is a DataError
otherwise, as is a key that is not a number or string. -/
def putRecord (kp : String) (autoInc : Bool) (recs : StoreRecs)
    (item : JVal) : Option StoreRecs :=
  match item.getField kp with
  | some kval =>
      match toDBKey kval with
      | some k => some (recsPut recs k item)
      | none => none
  | none =>
      if autoInc then
        let k := nextGenKey recs
        some (recs ++ [(DBKey.num k, item.setField kp (.num k))])
      else none

/-- Outcome of IDBObjectStore.add: inserted, rejected as a duplicate key
(ConstraintError), or rejected for another reason (DataError). -/
inductive AddOutcome where
  | added (recs : StoreRecs)
  | constraintError
  | otherError

/-- Keyed insert-if-absent as performed by IDBObjectStore.add. -/
def addRecord (kp : String) (autoInc : Bool) (recs : StoreRecs)
    (item : JVal) : AddOutcome :=
  match item.getField kp with
  | some kval =>
      match toDBKey kval with
      | some k =>
          if (recsLookup recs k).isSome then .constraintError
          else .added (recs ++ [(k, item)])
      | none => .otherError
  | none =>
      if autoInc then
        let k := nextGenKey recs
        .added (recs ++ [(DBKey.num k, item.setField kp (.num k))])
      else .otherError

/-- this.put(storeName, data): a readwrite transaction holding one put,
resolved on durable commit; the engine's failure for this operation, when
the fault oracle injects one, rejects the promise. -/
def dbPut (f : Faults) (st : DBState) (storeName : String) (item : JVal) :
    Except String DBState :=
  match f.onPut storeName item with
  | some e => .error e
  | none =>
      match putRecord (keyPathOf storeName) (isAutoIncrement storeName)
          (st.getStore storeName) item with
      | some recs' => .ok (st.setStore storeName recs')
      | none => .error "DataError"

/-- this.delete(storeName, key): keyed delete; succeeds on an absent key. -/
def dbDelete (f : Faults) (st : DBState) (storeName : String) (key : DBKey) :
    Except String DBState :=
  match f.onDelete storeName key with
  | some e => .error e
  | none => .ok (st.setStore storeName (recsDelete (st.getStore storeName) key))

/-- Per-store counters returned by importStore. -/
structure ImportStoreResult where
  total : Nat
  added : Nat
  skipped : Nat
  errors : Nat
deriving DecidableEq, Repr

/-- Whether store.add or store.put accepts the record synchronously: an
in-line-keyed store throws a DataError at call time when the record's
keyPath field is missing (without autoIncrement) or does not hold a valid
key. -/
def syncKeyOk (kp : String) (autoInc : Bool) (x : JVal) : Bool :=
  match x.getField kp with
  | some kv => (toDBKey kv).isSome
  | none => autoInc

/-- The synchronous queueing phase of importStore's data.forEach: insert
requests are created in order until store.add or store.put throws a
synchronous DataError, which escapes the forEach and rejects the promise
executor; the first component is the queued prefix, the second whether
such a throw stopped the loop. -/
def queuedPrefix (kp : String) (autoInc : Bool) :
    List JVal → List JVal × Bool
  | [] => ([], false)
  | x :: rest =>
      if syncKeyOk kp autoInc x then
        let q := queuedPrefix kp autoInc rest
        (x :: q.1, q.2)
      else ([], true)

/-- The asynchronous processing of the queued add requests.  The first
ConstraintError fires that request's onerror handler, but the handler
never calls preventDefault, so the unprevented error event aborts the
transaction (rolling back the whole batch) and bubbles to
transaction.onerror; none signals that abort.  A record queued by the
synchronous phase cannot fail for another reason in this model. -/
def addAll (kp : String) (autoInc : Bool) :
    StoreRecs → List JVal → Option (StoreRecs × Nat)
  | recs, [] => some (recs, 0)
  | recs, x :: rest =>
      match addRecord kp autoInc recs x with
      | .added recs' =>
          match addAll kp autoInc recs' rest with
          | some out => some (out.1, out.2 + 1)
          | none => none
      | .constraintError => none
      | .otherError => none

/-- The asynchronous processing of the queued put requests: an upsert with
a synchronously accepted key succeeds (the none branch is unreachable for
queued records). -/
def putAll (kp : String) (autoInc : Bool) :
    StoreRecs → List JVal → StoreRecs × Nat
  | recs, [] => (recs, 0)
  | recs, x :: rest =>
      match putRecord kp autoInc recs x with
      | some recs' =>
          let out := putAll kp autoInc recs' rest
          (out.1, out.2 + 1)
      | none => putAll kp autoInc recs rest

/-- importStore(storeName, data, overwrite) restricted to one store whose
keyPath and autoIncrement flag are given.  The per-record onsuccess and
onerror handlers maintain added, skipped and error counters, but no
onerror handler prevents the error event's default, so any failed request
aborts the transaction (rolling back the batch) and rejects the promise
through transaction.onerror; and a synchronous DataError thrown by
store.add or store.put rejects the promise executor directly while the
requests queued before it still commit when none of them fails.  The
promise therefore resolves only when every record inserts cleanly, and
the skipped and error counters can never be reported nonzero.  An error
carries the contents the engine actually committed: the original contents
after an abort, the committed prefix after a bare synchronous throw; a
synchronous throw settles the promise first, so it names the DataError
even when a queued request later aborts the transaction.  An injected
engine-level transaction failure (txFail) also rejects. -/
def importStore (txFail : Option String) (kp : String) (autoInc : Bool)
    (recs : StoreRecs) (data : List JVal) (overwrite : Bool) :
    Except (String × StoreRecs) (StoreRecs × ImportStoreResult) :=
  match txFail with
  | some e => .error (e, recs)
  | none =>
      let q := queuedPrefix kp autoInc data
      if overwrite then
        let out := putAll kp autoInc recs q.1
        if q.2 then .error ("DataError", out.1)
        else .ok (out.1, ⟨data.length, out.2, 0, 0⟩)
      else
        match addAll kp autoInc recs q.1 with
        | none =>
            .error (if q.2 then "DataError" else "ConstraintError", recs)
        | some out =>
            if q.2 then .error ("DataError", out.1)
            else .ok (out.1, ⟨data.length, out.2, 0, 0⟩)

/-- The sanitization applied by exportStore to each apiSettings record: a
shallow copy whose apiKey and password properties are deleted when present
and truthy. -/
def sanitizeApiSetting (item : JVal) : JVal :=
  let s1 := if truthyOpt (item.getField "apiKey")
            then item.removeField "apiKey" else item
  if truthyOpt (s1.getField "password")
  then s1.removeField "password" else s1

/-- exportStore(storeName): getAll on the store; for apiSettings each
record is sanitized before inclusion, unconditionally. -/
def exportStore (st : DBState) (storeName : String) : List JVal :=
  let result := (st.getStore storeName).map Prod.snd
  if storeName = "apiSettings" then result.map sanitizeApiSetting
  else result

/-- Version 4 to 5 migration step: initialize characterMemories and
globalMemory to empty arrays when missing (falsy). -/
def migrateFrom4To5 (d : JVal) : JVal :=
  let d1 := if truthyOpt (d.getField "characterMemories") then d
            else d.setField "characterMemories" (.arr [])
  if truthyOpt (d1.getField "globalMemory") then d1
  else d1.setField "globalMemory" (.arr [])

/-- Version 5 to 6 migration step: no data transformation. -/
def migrateFrom5To6 (d : JVal) : JVal := d

/-- Version 6 to 7 migration step: no data transformation. -/
def migrateFrom6To7 (d : JVal) : JVal := d

/-- Version 7 to 8 migration step: initialize fileStorage and
fileReferences to empty arrays when missing (falsy). -/
def migrateFrom7To8 (d : JVal) : JVal :=
  let d1 := if truthyOpt (d.getField "fileStorage") then d
            else d.setField "fileStorage" (.arr [])
  if truthyOpt (d1.getField "fileReferences") then d1
  else d1.setField "fileReferences" (.arr [])

/-- Version 8 to 9 migration step: no data transformation. -/
def migrateFrom8To9 (d : JVal) : JVal := d

/-- Version 9 to 10 migration step: initialize themeConfig to an empty
array when missing (falsy). -/
def migrateFrom9To10 (d : JVal) : JVal :=
  if truthyOpt (d.getField "themeConfig") then d
  else d.setField "themeConfig" (.arr [])

/-- Version 10 to 11 migration step: no data transformation. -/
def migrateFrom10To11 (d : JVal) : JVal := d

/-- Version 11 to 12 migration step: drop the bubbleDesignerStickers
collection when present (truthy). -/
def migrateFrom11To12 (d : JVal) : JVal :=
  if truthyOpt (d.getField "bubbleDesignerStickers")
  then d.removeField "bubbleDesignerStickers" else d

/-- Version 12 to 13 migration step: no data transformation. -/
def migrateFrom12To13 (d : JVal) : JVal := d

/-- setImageUsageMetadata(fileId, usageType, metadata): upsert of a usage
record keyed by fileId into the live imageUsageMetadata store. -/
def setImageUsageMetadata (f : Faults) (now : String) (st : DBState)
    (fileId : JVal) (usageType : JVal) (meta : JVal) :
    Except String DBState :=
  let usageData : JVal := .obj
    [("fileId", fileId),
     ("usageType", usageType),
     ("createdAt", jsOr (meta.getField "createdAt") (.str now)),
     ("category", jsOr (meta.getField "category") (.str "general")),
     ("tags", jsOr (meta.getField "tags") (.arr [])),
     ("size", jsOr (meta.getField "size") (.num 0)),
     ("fileName", jsOr (meta.getField "fileName") .null)]
  dbPut f st "imageUsageMetadata" usageData

/-- One emoji of the 13-to-14 back-fill: a qualifying emoji (truthy id and
tag) is matched against data.fileReferences by referenceType and
referenceKey and, when a match with a truthy fileId is found, a usage
record is written to the live store.  The error of a failed write carries
the state reached so far (already-committed single-put transactions). -/
def emojiBackfillStep (f : Faults) (now : String) (d : JVal)
    (st : DBState) (emoji : JVal) : Except (String × DBState) DBState :=
  if truthyOpt (emoji.getField "id") && truthyOpt (emoji.getField "tag") then
    match jsOr (d.getField "fileReferences") (.arr []) with
    | .arr refs =>
        let emojiFile := refs.find? (fun ref =>
          jsStrictEqOpt (ref.getField "referenceType") (some (.str "emoji")) &&
          jsStrictEqOpt (ref.getField "referenceKey") (emoji.getField "tag"))
        match emojiFile with
        | some ef =>
            if ef.truthy && truthyOpt (ef.getField "fileId") then
              match setImageUsageMetadata f now st
                  (jsOr (ef.getField "fileId") .null) (.str "general")
                  (.obj [("category", .str "emoji"),
                         ("tags", .arr [jsOr (emoji.getField "tag") .null]),
                         ("createdAt",
                          jsOr (emoji.getField "createdAt") (.str now)),
                         ("fileName", jsOr (emoji.getField "tag") .null)]) with
              | .ok st' => .ok st'
              | .error e => .error (e, st)
            else .ok st
        | none => .ok st
    | _ => .error ("data.fileReferences.find is not a function", st)
  else .ok st

/-- One moment of the 13-to-14 back-fill: every entry of a qualifying
imageFileIds array yields a usage record written to the live store. -/
def momentBackfillStep (f : Faults) (now : String)
    (st : DBState) (moment : JVal) : Except (String × DBState) DBState :=
  match moment.getField "imageFileIds" with
  | some (.arr ids) =>
      if (JVal.arr ids).truthy then
        ids.enum.foldlM (fun st' (p : Nat × JVal) =>
          match setImageUsageMetadata f now st' p.2 (.str "general")
              (.obj [("category", .str "moments"),
                     ("tags", .arr [.str "朋友圈",
                       jsOr (moment.getField "authorName") (.str "未知")]),
                     ("createdAt",
                      jsOr (moment.getField "timestamp") (.str now)),
                     ("fileName", .str ("moment_" ++
                       jvalToStringOpt (moment.getField "id") ++ "_" ++
                       toString (p.1 + 1) ++ ".jpg"))]) with
          | .ok st'' => .ok st''
          | .error e => .error (e, st')) st
      else .ok st
  | _ => .ok st

/-- The emoji half of the 13-to-14 back-fill: runs over data.emojis when
it is a truthy array. -/
def emojiBackfillLoop (f : Faults) (now : String) (d : JVal)
    (st : DBState) : Except (String × DBState) DBState :=
  match d.getField "emojis" with
  | some (.arr es) =>
      if (JVal.arr es).truthy then
        es.foldlM (emojiBackfillStep f now d) st
      else pure st
  | _ => pure st

/-- The moments half of the 13-to-14 back-fill: runs over data.moments
when it is a truthy array. -/
def momentBackfillLoop (f : Faults) (now : String) (d : JVal)
    (st : DBState) : Except (String × DBState) DBState :=
  match d.getField "moments" with
  | some (.arr ms) =>
      if (JVal.arr ms).truthy then
        ms.foldlM (momentBackfillStep f now) st
      else pure st
  | _ => pure st

/-- Version 13 to 14 migration step: back-fills usage-classification
records for historical emojis and moment images by writing them to the
live imageUsageMetadata store; any failure is caught and logged, leaving
the records written so far in place, and never fails the migration. -/
def migrateFrom13To14 (f : Faults) (now : String) (st : DBState)
    (d : JVal) : DBState :=
  match emojiBackfillLoop f now d st >>= momentBackfillLoop f now d with
  | .ok st' => st'
  | .error (_, stPartial) => stPartial

/-- The version field of a metadata value compared with !== 14; any value
that is not the number 14 (including undefined) differs. -/
def versionNeq14 (md : JVal) : Bool :=
  match md.getField "version" with
  | some (.num n) => n ≠ 14
  | _ => true

/-- The version field of a metadata value compared with < 14; modelled for
numeric versions, and false for a missing field, as JS compares undefined. -/
def versionLt14 (md : JVal) : Bool :=
  match md.getField "version" with
  | some (.num n) => n < 14
  | _ => false

/-- fromVersion <= k for the guards of migrateData; modelled for numeric
versions, false for undefined. -/
def fromVersionLe (fv : Option JVal) (k : Int) : Bool :=
  match fv with
  | some (.num n) => n ≤ k
  | _ => false

/-- The fromVersion of migrateData: the metadata's version field when the
metadata is truthy, 1 when the snapshot has no metadata. -/
def fromVersionOf (md : Option JVal) : Option JVal :=
  match md with
  | some m => if m.truthy then m.getField "version" else some (.num 1)
  | none => some (.num 1)

/-- The snapshot-only transform chain of migrateData: the version steps
from 4-to-5 through 12-to-13, each applied when its guard
fromVersion <= step holds (the target version 14 makes the second
conjunct of every guard true). -/
def migrateSteps (fromVersion : Option JVal) (d0 : JVal) : JVal :=
  let d1 := if fromVersionLe fromVersion 4 then migrateFrom4To5 d0 else d0
  let d2 := if fromVersionLe fromVersion 5 then migrateFrom5To6 d1 else d1
  let d3 := if fromVersionLe fromVersion 6 then migrateFrom6To7 d2 else d2
  let d4 := if fromVersionLe fromVersion 7 then migrateFrom7To8 d3 else d3
  let d5 := if fromVersionLe fromVersion 8 then migrateFrom8To9 d4 else d4
  let d6 := if fromVersionLe fromVersion 9 then migrateFrom9To10 d5 else d5
  let d7 := if fromVersionLe fromVersion 10 then migrateFrom10To11 d6 else d6
  let d8 := if fromVersionLe fromVersion 11 then migrateFrom11To12 d7 else d7
  if fromVersionLe fromVersion 12 then migrateFrom12To13 d8 else d8

/-- migrateData(importData): computes fromVersion from the metadata, takes
a deep copy of the snapshot (pure values make the copy the value itself,
and the original is untouched by construction), stamps the copy's metadata
with the target version 14, the migration time and the original version,
and runs every step whose version guard holds; the 13-to-14 step is the
only one that touches the live database.  A snapshot whose _metadata key
does not hold an object makes the metadata assignment throw (TypeError),
carried here as an error together with the untouched state; a snapshot
whose _metadata holds an object with a missing version field gets no
originalVersion stamp, matching the JSON-invisible undefined the code
stores.  The target version 14 makes every guard's second conjunct
(toVersion at least the step's target) true. -/
def migrateData (f : Faults) (now : String) (st : DBState)
    (importData : JVal) : Except (String × DBState) (DBState × JVal) :=
  let md := importData.getField "_metadata"
  let fromVersion : Option JVal := fromVersionOf md
  match md with
  | some (.obj mfs) =>
      let mfs1 := alistSet mfs "version" (.num 14)
      let mfs2 := alistSet mfs1 "migrationTime" (.str now)
      let mfs3 :=
        match fromVersion with
        | some fv => alistSet mfs2 "originalVersion" fv
        | none => mfs2
      let d0 := importData.setField "_metadata" (.obj mfs3)
      let d9 := migrateSteps fromVersion d0
      if fromVersionLe fromVersion 13 then
        .ok (migrateFrom13To14 f now st d9, d9)
      else
        .ok (st, d9)
  | _ => .error ("Cannot set properties of non-object _metadata", st)

/-- Options of importDatabase with the code's defaults. -/
structure ImportOptions where
  overwrite : Bool := false
  validateVersion : Bool := true
  stores : Option (List String) := none
  enableMigration : Bool := true

/-- Result of a successful importDatabase call. -/
structure ImportResult where
  importedStores : List String
  results : List (String × ImportStoreResult)
  migrated : Bool

/-- Top-level keys of a document. -/
def objKeys : JVal → List String
  | .obj fields => fields.map Prod.fst
  | _ => []

/-- The store-clearing loop of importDatabase under overwrite. -/
def clearStores (st : DBState) (names : List String) : DBState :=
  names.foldl (fun s name =>
    if objectStoreNames.contains name then s.setStore name [] else s) st

/-- One store of the per-store import loop of importDatabase: a store
named by the document and physically present is imported when its entry is
truthy; a truthy non-array entry makes data.forEach throw, and a store
transaction failure rejects, both carrying the state already committed by
the preceding stores. -/
def importStoreStep (f : Faults) (migratedData : JVal) (overwrite : Bool)
    (acc : DBState × List (String × ImportStoreResult)) (name : String) :
    Except (String × DBState) (DBState × List (String × ImportStoreResult)) :=
  let (s, rs) := acc
  if objectStoreNames.contains name &&
      truthyOpt (migratedData.getField name) then
    match migratedData.getField name with
    | some (.arr items) =>
        match importStore (f.onTx name) (keyPathOf name)
            (isAutoIncrement name) (s.getStore name) items overwrite with
        | .ok (recs', r) => .ok (s.setStore name recs', rs ++ [(name, r)])
        | .error (e, recsAfter) => .error (e, s.setStore name recsAfter)
    | _ => .error ("data.forEach is not a function", s)
  else .ok (s, rs)

/-- The per-store import loop of importDatabase. -/
def importStoresLoop (f : Faults) (migratedData : JVal)
    (overwrite : Bool) (st : DBState) (names : List String) :
    Except (String × DBState) (DBState × List (String × ImportStoreResult)) :=
  names.foldlM (importStoreStep f migratedData overwrite) (st, [])

/-- The body of importDatabase before the outer catch: format validation,
the version-check-and-migration block, overwrite clearing, and the
per-store import loop.  An array-valued document (typeof object in JS but
never produced by the exporter) is outside the model. -/
def importDatabaseInner (f : Faults) (now : String) (st : DBState)
    (importData : JVal) (opts : ImportOptions) :
    Except (String × DBState) (DBState × ImportResult) := do
  match importData with
  | .obj _ =>
      let step1 : Except (String × DBState) (DBState × JVal × Bool) :=
        match importData.getField "_metadata" with
        | some md =>
            if md.truthy && versionNeq14 md then
              if opts.enableMigration && versionLt14 md then
                match migrateData f now st importData with
                | .ok (st', d') => .ok (st', d', true)
                | .error e => .error e
              else if opts.validateVersion then
                .error ("数据库版本不匹配。当前版本: 14, 导入版本: " ++
                  jvalToStringOpt (md.getField "version"), st)
              else .ok (st, importData, false)
            else .ok (st, importData, false)
        | none => .ok (st, importData, false)
      let (st1, migratedData, migratedFlag) ← step1
      let storesToImport :=
        match opts.stores with
        | some ss => ss
        | none => (objKeys migratedData).filter (fun k => k ≠ "_metadata")
      let st2 := if opts.overwrite then clearStores st1 storesToImport else st1
      let (st3, results) ←
        importStoresLoop f migratedData opts.overwrite st2 storesToImport
      .ok (st3, ⟨storesToImport, results, migratedFlag⟩)
  | _ => .error ("导入数据格式无效", st)

/-- importDatabase(importData, options): the inner body with the outer
catch, which wraps any failure's message and rethrows; the state carried
by an error is the live state at the moment of the throw. -/
def importDatabase (f : Faults) (now : String) (st : DBState)
    (importData : JVal) (opts : ImportOptions) :
    Except (String × DBState) (DBState × ImportResult) :=
  match importDatabaseInner f now st importData opts with
  | .ok r => .ok r
  | .error (e, st') => .error ("导入失败: " ++ e, st')

/-- Whether a stored blob value is still a genuine Blob instance
(instanceof Blob). -/
def isRealBlobVal : JVal → Bool
  | .blobv i => i.isRealBlob
  | _ => false

/-- Whether blob.size is defined.  A plain object read back from storage
may carry a size property; primitives have none. -/
def blobSizeDefined : JVal → Bool
  | .blobv i => i.hasSize
  | .obj fs => (alistLookup fs "size").isSome
  | _ => false

/-- Whether blob.type is defined. -/
def blobTypeDefined : JVal → Bool
  | .blobv i => i.hasType
  | .obj fs => (alistLookup fs "type").isSome
  | _ => false

/-- Whether blob.stream or blob.arrayBuffer is a function.  A plain JSON
object's properties are never functions. -/
def blobHasMethods : JVal → Bool
  | .blobv i => i.hasMethods
  | _ => false

/-- The process-local ephemeral handle URL.createObjectURL yields for a
file; its value is opaque to the code, modelled deterministically. -/
def mkHandle (fileId : String) : String := "blob:" ++ fileId

/-- The try-block of createFileURL: cache miss path that loads the record
and validates or reconstructs its blob, producing the handle or throwing. -/
def createFileURLBody (st : DBState) (fileId : String) :
    Except String String :=
  match recsLookup (st.getStore "fileStorage") (.str fileId) with
  | none => .error ("文件不存在: " ++ fileId)
  | some rec =>
      match rec.getField "blob" with
      | some b =>
          if b.truthy then
            if isRealBlobVal b then .ok (mkHandle fileId)
            else if blobSizeDefined b && blobTypeDefined b then
              if blobHasMethods b then .ok (mkHandle fileId)
              else .error "无法处理blob数据: Blob对象缺少必要的方法"
            else .error "无法处理blob数据: 无效的blob数据结构"
          else .error ("文件记录中缺少blob数据: " ++ fileId)
      | none => .error ("文件记录中缺少blob数据: " ++ fileId)

/-- createFileURL(fileId): returns the cached handle when one exists;
otherwise runs the body and caches a fresh handle on success; every
failure is caught and yields the empty handle, never an exception. -/
def createFileURL (st : DBState) (fileId : String) : String × DBState :=
  match alistLookup st.urlCache fileId with
  | some u => (u, st)
  | none =>
      match createFileURLBody st fileId with
      | .ok url => (url, { st with urlCache := alistSet st.urlCache fileId url })
      | .error _ => ("", st)

/-- revokeFileURL(fileId): drops the cached handle when present. -/
def revokeFileURL (st : DBState) (fileId : String) : DBState :=
  { st with urlCache := alistRemove st.urlCache fileId }

/-- deleteFile(fileId): keyed delete of the FileBlobRecord followed by
revocation of any cached handle; no cascade to references or metadata. -/
def deleteFile (f : Faults) (st : DBState) (fileId : String) :
    Except String DBState :=
  match dbDelete f st "fileStorage" (.str fileId) with
  | .error e => .error e
  | .ok st' => .ok (revokeFileURL st' fileId)

/-- cleanupFileReferences(fileId): one cursor-draining readwrite
transaction over the fileId index that deletes every reference whose
fileId field equals the given id, resolving with the count. -/
def cleanupFileReferences (f : Faults) (st : DBState) (fileId : String) :
    Except String (DBState × Nat) :=
  match f.onCursor fileId with
  | some e => .error e
  | none =>
      let refs := st.getStore "fileReferences"
      let isMatch := fun (p : DBKey × JVal) =>
        jsStrictEqOpt (p.2.getField "fileId") (some (.str fileId))
      let remaining := refs.filter (fun p => ¬ isMatch p)
      .ok (st.setStore "fileReferences" remaining,
           (refs.filter isMatch).length)

/-- Result of cleanupSelectedImages; the early return of an empty request
list carries no totalRequested field. -/
structure CleanupResult where
  deletedCount : Nat
  totalRequested : Option Nat
  errors : List (String × String)
deriving DecidableEq, Repr

/-- One iteration of the cleanupSelectedImages loop: delete the blob, the
usage metadata, then all references; the first failure is recorded against
the id, keeping the state already reached, and the loop continues. -/
def cleanupOneImage (f : Faults)
    (acc : DBState × Nat × List (String × String)) (fileId : String) :
    DBState × Nat × List (String × String) :=
  let (s, dc, errs) := acc
  match deleteFile f s fileId with
  | .error e => (s, dc, errs ++ [(fileId, e)])
  | .ok s1 =>
      match dbDelete f s1 "imageUsageMetadata" (.str fileId) with
      | .error e => (s1, dc, errs ++ [(fileId, e)])
      | .ok s2 =>
          match cleanupFileReferences f s2 fileId with
          | .error e => (s2, dc, errs ++ [(fileId, e)])
          | .ok (s3, _) => (s3, dc + 1, errs)

/-- cleanupSelectedImages(fileIds): best-effort sequential batch deletion
with per-id error recording. -/
def cleanupSelectedImages (f : Faults) (st : DBState)
    (fileIds : List String) : DBState × CleanupResult :=
  match fileIds with
  | [] => (st, ⟨0, none, []⟩)
  | _ =>
      let out := fileIds.foldl (cleanupOneImage f) (st, 0, [])
      (out.1, ⟨out.2.1, some fileIds.length, out.2.2⟩)

/-- The engine-level fault a given id can hit inside the
cleanupSelectedImages loop: the first of its three operations the oracle
fails, with its message. -/
def cleanupStepFault (f : Faults) (fileId : String) : Option String :=
  match f.onDelete "fileStorage" (.str fileId) with
  | some e => some e
  | none =>
      match f.onDelete "imageUsageMetadata" (.str fileId) with
      | some e => some e
      | none => f.onCursor fileId

/-- State of the connection manager for the init() protocol: the ready
flag and cached connection (this.isReady, this.db), whether an
initialization promise is in flight (this.initPromise), the callers
awaiting it, the number of physical opens started, the number of times the
structural-upgrade callback ran, and the results delivered to callers
(connection on success, unit error on failure). -/
structure InitSys where
  ready : Bool
  conn : Option Nat
  inflight : Bool
  waiters : List Nat
  opens : Nat
  upgradeRuns : Nat
  results : List (Nat × Except Unit Nat)

/-- The state before any init() call. -/
def initialSys : InitSys := ⟨false, none, false, [], 0, 0, []⟩

/-- One init() call running synchronously up to its first await: a ready
connection is returned directly; an in-flight initialization is awaited;
otherwise a new initialization promise is created and the physical open
started. -/
def callInit (s : InitSys) (caller : Nat) : InitSys :=
  match s.ready, s.conn with
  | true, some c => { s with results := s.results ++ [(caller, .ok c)] }
  | _, _ =>
      if s.inflight then { s with waiters := s.waiters ++ [caller] }
      else { s with inflight := true, opens := s.opens + 1,
                    waiters := s.waiters ++ [caller] }

/-- Resolution of the in-flight open request: on success the connection is
cached, the ready flag set, and every awaiting caller resumes with the
same connection, each clearing the in-flight promise; on failure the
in-flight promise is cleared (so a later call can retry) and the failure
propagates to every awaiting caller.  The engine may have run the
structural-upgrade callback during this open (ranUpgrade). -/
def resolveInit (s : InitSys) (r : Except Unit Nat) (ranUpgrade : Bool) :
    InitSys :=
  let u := s.upgradeRuns + (if ranUpgrade then 1 else 0)
  match r with
  | .ok c =>
      { s with ready := true, conn := some c, inflight := false,
               waiters := [], upgradeRuns := u,
               results := s.results ++ s.waiters.map (fun w => (w, .ok c)) }
  | .error _ =>
      { s with inflight := false, waiters := [], upgradeRuns := u,
               results := s.results ++ s.waiters.map (fun w => (w, .error ())) }

/-- A wave of init() calls issued before the first resolves. -/
def initWave (callers : List Nat) : InitSys :=
  callers.foldl callInit initialSys

/-- The configData document built by apiConfigManager.saveConfig (lines
202 to 214): the connection-related configuration including the key and
apiKeys credential fields, written as-is into the apiSettings store. -/
def saveConfigData (configId : JVal) (config : JVal) (apiKeys : JVal)
    (now : JVal) : JVal :=
  .obj [("id", configId),
        ("url", jsOr (config.getField "url") (.str "")),
        ("key", jsOr (config.getField "key") (.str "")),
        ("contextMessageCount",
         jsOr (config.getField "contextMessageCount") (.num 10)),
        ("timeout", jsOr (config.getField "timeout") (.num 60)),
        ("apiKeys", apiKeys),
        ("configName", jsOr (config.getField "configName")
          (jsOr (config.getField "name") (.str "未命名配置"))),
        ("isDefault", jsOr (config.getField "isDefault") (.boolean false)),
        ("createdAt", jsOr (config.getField "createdAt") now),
        ("updatedAt", now)]

/-- The store.put of saveConfig into this.settingsStore, which is
apiSettings. -/
def saveConfig (f : Faults) (st : DBState) (configId : JVal)
    (config : JVal) (apiKeys : JVal) (now : JVal) : Except String DBState :=
  dbPut f st "apiSettings" (saveConfigData configId config apiKeys now)

/-- A version-4 snapshot carrying only its metadata. -/
def snapV4 : JVal := .obj [("_metadata", .obj [("version", .num 4)])]

/-- A version-4 snapshot without fileStorage or characterMemories keys but
with a non-empty fileReferences collection. -/
def snapV4WithRefs : JVal :=
  .obj [("_metadata", .obj [("version", .num 4)]),
        ("fileReferences",
         .arr [.obj [("referenceId", .str "emoji_x"), ("fileId", .str "f9")]])]

/-- A version-13 snapshot holding one moment with one image, which the
13-to-14 back-fill turns into a live usage-metadata record. -/
def snapV13Moments : JVal :=
  .obj [("_metadata", .obj [("version", .num 13)]),
        ("moments", .arr [.obj [("id", .num 1),
          ("imageFileIds", .arr [.str "f1"]),
          ("timestamp", .str "T0"), ("authorName", .str "A")]])]

/-- A version-7 snapshot, for exercising the version-mismatch rejection. -/
def snapV7 : JVal :=
  .obj [("_metadata", .obj [("version", .num 7)]), ("contacts", .arr [])]

/-- A database holding exactly the two file blobs a and b. -/
def cleanupDemoDB : DBState :=
  ⟨[("fileStorage", [(.str "a", .obj [("fileId", .str "a")]),
                     (.str "b", .obj [("fileId", .str "b")])])], []⟩

/-- A saveConfig input document carrying an API key. -/
def cfgInput : JVal :=
  .obj [("url", .str "https://api.example"), ("key", .str "sk-secret")]

/-- The apiKeys structure saveConfig persists alongside the main key. -/
def cfgKeys : JVal :=
  .arr [.obj [("key", .str "sk-secret"), ("name", .str "主Key"),
              ("enabled", .boolean true), ("index", .num 0)]]

/-- A database whose URL cache already holds a handle for f1. -/
def cachedHandleDB : DBState := ⟨[], [("f1", "blob:f1")]⟩

/-- Whether a value is an object. -/
def JVal.isObj : JVal → Bool
  | .obj _ => true
  | _ => false

/-- Decidable check that a document field holds the empty array. -/
def fieldIsEmptyArr (d : JVal) (k : String) : Bool :=
  match d.getField k with
  | some (.arr []) => true
  | _ => false

/-- Frame relation of the migration pipeline on the live database: every
store other than imageUsageMetadata, and the URL cache, is unchanged. -/
def UsageFrame (st st' : DBState) : Prop :=
  (∀ n, n ≠ "imageUsageMetadata" → st'.getStore n = st.getStore n) ∧
  st'.urlCache = st.urlCache

theorem alistLookup_set {α : Type} (l : List (String × α)) (k k' : String)
    (v : α) :
    alistLookup (alistSet l k v) k' =
      if k = k' then some v else alistLookup l k' := by
  induction l with
  | nil =>
      simp only [alistSet, alistLookup]
  | cons p rest ih =>
      obtain ⟨a, b⟩ := p
      by_cases hak : a = k
      · subst hak
        simp only [alistSet, if_pos rfl, alistLookup]
        by_cases hk' : a = k'
        · simp [hk']
        · simp [hk']
      · simp only [alistSet, if_neg hak, alistLookup]
        by_cases hk' : a = k'
        · have hkk : ¬ k = k' := fun hh => hak (hk'.trans hh.symm)
          simp [hk', hkk]
        · simp [hk', ih]

theorem alistLookup_remove {α : Type} (l : List (String × α)) (k k' : String)
    (h : k' ≠ k) :
    alistLookup (alistRemove l k) k' = alistLookup l k' := by
  induction l with
  | nil => rfl
  | cons p rest ih =>
      obtain ⟨a, b⟩ := p
      by_cases hak : a = k
      · subst hak
        have hne : ¬ a = k' := fun hh => h hh.symm
        simp [alistRemove, alistLookup, hne, ih]
      · by_cases hk' : a = k'
        · simp [alistRemove, alistLookup, hak, hk', h]
        · simp [alistRemove, alistLookup, hak, hk', ih]

theorem getField_setField_ne (d : JVal) (k k' : String) (v : JVal)
    (h : k ≠ k') : (d.setField k v).getField k' = d.getField k' := by
  cases d <;> simp [JVal.setField, JVal.getField, alistLookup_set, h]

theorem getField_setField_self (fs : List (String × JVal)) (k : String)
    (v : JVal) : ((JVal.obj fs).setField k v).getField k = some v := by
  simp [JVal.setField, JVal.getField, alistLookup_set]

theorem getField_removeField_ne (d : JVal) (k k' : String)
    (h : k' ≠ k) : (d.removeField k).getField k' = d.getField k' := by
  cases d <;> simp [JVal.removeField, JVal.getField, alistLookup_remove, h]

theorem isObj_setField (d : JVal) (k : String) (v : JVal) :
    (d.setField k v).isObj = d.isObj := by
  cases d <;> simp [JVal.setField, JVal.isObj]

theorem isObj_removeField (d : JVal) (k : String) :
    (d.removeField k).isObj = d.isObj := by
  cases d <;> simp [JVal.removeField, JVal.isObj]

theorem isObj_iff (d : JVal) : d.isObj = true ↔ ∃ fs, d = .obj fs := by
  cases d <;> simp [JVal.isObj]

theorem migrateFrom4To5_getField_ne (d : JVal) (k : String)
    (h1 : k ≠ "characterMemories") (h2 : k ≠ "globalMemory") :
    (migrateFrom4To5 d).getField k = d.getField k := by
  unfold migrateFrom4To5
  dsimp only
  split <;> split <;>
    simp [getField_setField_ne _ _ _ _ (fun hh => h1 hh.symm),
      getField_setField_ne _ _ _ _ (fun hh => h2 hh.symm)]

theorem migrateFrom7To8_getField_ne (d : JVal) (k : String)
    (h1 : k ≠ "fileStorage") (h2 : k ≠ "fileReferences") :
    (migrateFrom7To8 d).getField k = d.getField k := by
  unfold migrateFrom7To8
  dsimp only
  split <;> split <;>
    simp [getField_setField_ne _ _ _ _ (fun hh => h1 hh.symm),
      getField_setField_ne _ _ _ _ (fun hh => h2 hh.symm)]

theorem migrateFrom9To10_getField_ne (d : JVal) (k : String)
    (h1 : k ≠ "themeConfig") :
    (migrateFrom9To10 d).getField k = d.getField k := by
  unfold migrateFrom9To10
  split <;>
    simp [getField_setField_ne _ _ _ _ (fun hh => h1 hh.symm)]

theorem migrateFrom11To12_getField_ne (d : JVal) (k : String)
    (h1 : k ≠ "bubbleDesignerStickers") :
    (migrateFrom11To12 d).getField k = d.getField k := by
  unfold migrateFrom11To12
  split <;> simp [getField_removeField_ne _ _ _ h1]

theorem migrateFrom4To5_characterMemories (d : JVal)
    (hobj : d.isObj = true) (h : d.getField "characterMemories" = none) :
    (migrateFrom4To5 d).getField "characterMemories" = some (.arr []) := by
  obtain ⟨fs, rfl⟩ := (isObj_iff d).mp hobj
  unfold migrateFrom4To5
  dsimp only
  rw [h]
  simp only [truthyOpt, Bool.false_eq_true, if_false]
  split
  · exact getField_setField_self fs _ _
  · rw [getField_setField_ne _ _ _ _ (by decide)]
    exact getField_setField_self fs _ _

theorem migrateFrom4To5_isObj (d : JVal) :
    (migrateFrom4To5 d).isObj = d.isObj := by
  unfold migrateFrom4To5
  dsimp only
  split <;> split <;> simp [isObj_setField]

theorem migrateFrom7To8_isObj (d : JVal) :
    (migrateFrom7To8 d).isObj = d.isObj := by
  unfold migrateFrom7To8
  dsimp only
  split <;> split <;> simp [isObj_setField]

theorem migrateFrom9To10_isObj (d : JVal) :
    (migrateFrom9To10 d).isObj = d.isObj := by
  unfold migrateFrom9To10
  split <;> simp [isObj_setField]

theorem migrateFrom11To12_isObj (d : JVal) :
    (migrateFrom11To12 d).isObj = d.isObj := by
  unfold migrateFrom11To12
  split <;> simp [isObj_removeField]

theorem migrateFrom7To8_sets (d : JVal) (hobj : d.isObj = true)
    (hfs : d.getField "fileStorage" = none)
    (hfr : d.getField "fileReferences" = none) :
    (migrateFrom7To8 d).getField "fileStorage" = some (.arr []) ∧
    (migrateFrom7To8 d).getField "fileReferences" = some (.arr []) := by
  obtain ⟨fs, rfl⟩ := (isObj_iff d).mp hobj
  unfold migrateFrom7To8
  dsimp only
  rw [hfs]
  simp only [truthyOpt, Bool.false_eq_true, if_false]
  rw [getField_setField_ne _ _ _ _
    (by decide : ("fileStorage" : String) ≠ "fileReferences"), hfr]
  simp only [truthyOpt, Bool.false_eq_true, if_false]
  constructor
  · rw [getField_setField_ne _ _ _ _
      (by decide : ("fileReferences" : String) ≠ "fileStorage")]
    exact getField_setField_self fs _ _
  · exact getField_setField_self _ _ _

theorem migrateFrom9To10_sets (d : JVal) (hobj : d.isObj = true)
    (htc : d.getField "themeConfig" = none) :
    (migrateFrom9To10 d).getField "themeConfig" = some (.arr []) := by
  obtain ⟨fs, rfl⟩ := (isObj_iff d).mp hobj
  unfold migrateFrom9To10
  rw [htc]
  simp only [truthyOpt, Bool.false_eq_true, if_false]
  exact getField_setField_self fs _ _

/-- C1 (amended): for every snapshot whose metadata version is 4 and which
lacks the characterMemories, fileStorage, fileReferences and themeConfig
keys, migrateData (the pipeline importDatabase invokes under
enableMigration against target version 14) yields a transformed snapshot
in which those four collections are present as empty arrays, the metadata
version is 14 and originalVersion is 4; the original snapshot is left
unmutated, which the embedding renders by the pipeline being a pure
function of the snapshot applied to a deep copy. -/
theorem claim1_theorem (f : Faults) (now : String) (st : DBState)
    (d : JVal) (mfs : List (String × JVal))
    (hmeta : d.getField "_metadata" = some (.obj mfs))
    (hver : alistLookup mfs "version" = some (.num 4))
    (hcm : d.getField "characterMemories" = none)
    (hfs : d.getField "fileStorage" = none)
    (hfr : d.getField "fileReferences" = none)
    (htc : d.getField "themeConfig" = none) :
    ∃ st' d', migrateData f now st d = .ok (st', d') ∧
      d'.getField "characterMemories" = some (.arr []) ∧
      d'.getField "fileStorage" = some (.arr []) ∧
      d'.getField "fileReferences" = some (.arr []) ∧
      d'.getField "themeConfig" = some (.arr []) ∧
      ∃ mfs', d'.getField "_metadata" = some (.obj mfs') ∧
        alistLookup mfs' "version" = some (.num 14) ∧
        alistLookup mfs' "originalVersion" = some (.num 4) := by
  have hobj0 : ∃ fs0, d = .obj fs0 := by
    cases d <;> simp [JVal.getField] at hmeta ⊢
  obtain ⟨fs0, rfl⟩ := hobj0
  have hred : migrateData f now st (JVal.obj fs0) =
      .ok (migrateFrom13To14 f now st
             (migrateFrom11To12 (migrateFrom9To10 (migrateFrom7To8
               (migrateFrom4To5 ((JVal.obj fs0).setField "_metadata"
                 (.obj (alistSet (alistSet (alistSet mfs "version" (.num 14))
                   "migrationTime" (.str now)) "originalVersion" (.num 4)))))))),
           migrateFrom11To12 (migrateFrom9To10 (migrateFrom7To8
             (migrateFrom4To5 ((JVal.obj fs0).setField "_metadata"
               (.obj (alistSet (alistSet (alistSet mfs "version" (.num 14))
                 "migrationTime" (.str now)) "originalVersion" (.num 4)))))))) := by
    have hml : alistLookup fs0 "_metadata" = some (JVal.obj mfs) := hmeta
    unfold migrateData
    simp only [JVal.getField, hml, fromVersionOf, JVal.truthy, hver,
      fromVersionLe, migrateSteps, migrateFrom5To6, migrateFrom6To7,
      migrateFrom8To9, migrateFrom10To11, migrateFrom12To13]
    norm_num
  set mfs3 := alistSet (alistSet (alistSet mfs "version" (.num 14))
    "migrationTime" (.str now)) "originalVersion" (.num 4) with hm3
  set d0 := (JVal.obj fs0).setField "_metadata" (.obj mfs3) with hd0
  have h0cm : d0.getField "characterMemories" = none := by
    rw [hd0, getField_setField_ne _ _ _ _ (by decide)]; exact hcm
  have h0fs : d0.getField "fileStorage" = none := by
    rw [hd0, getField_setField_ne _ _ _ _ (by decide)]; exact hfs
  have h0fr : d0.getField "fileReferences" = none := by
    rw [hd0, getField_setField_ne _ _ _ _ (by decide)]; exact hfr
  have h0tc : d0.getField "themeConfig" = none := by
    rw [hd0, getField_setField_ne _ _ _ _ (by decide)]; exact htc
  have h0meta : d0.getField "_metadata" = some (.obj mfs3) := by
    rw [hd0]; exact getField_setField_self fs0 _ _
  have h0obj : d0.isObj = true := by
    rw [hd0]; simp [JVal.setField, JVal.isObj]
  set d1 := migrateFrom4To5 d0 with hd1
  have h1obj : d1.isObj = true := by rw [hd1, migrateFrom4To5_isObj]; exact h0obj
  have h1cm : d1.getField "characterMemories" = some (.arr []) :=
    migrateFrom4To5_characterMemories d0 h0obj h0cm
  have h1fs : d1.getField "fileStorage" = none := by
    rw [hd1, migrateFrom4To5_getField_ne _ _ (by decide) (by decide)]; exact h0fs
  have h1fr : d1.getField "fileReferences" = none := by
    rw [hd1, migrateFrom4To5_getField_ne _ _ (by decide) (by decide)]; exact h0fr
  have h1tc : d1.getField "themeConfig" = none := by
    rw [hd1, migrateFrom4To5_getField_ne _ _ (by decide) (by decide)]; exact h0tc
  have h1meta : d1.getField "_metadata" = some (.obj mfs3) := by
    rw [hd1, migrateFrom4To5_getField_ne _ _ (by decide) (by decide)]; exact h0meta
  set d4 := migrateFrom7To8 d1 with hd4
  have h4obj : d4.isObj = true := by rw [hd4, migrateFrom7To8_isObj]; exact h1obj
  have h4set := migrateFrom7To8_sets d1 h1obj h1fs h1fr
  have h4cm : d4.getField "characterMemories" = some (.arr []) := by
    rw [hd4, migrateFrom7To8_getField_ne _ _ (by decide) (by decide)]; exact h1cm
  have h4tc : d4.getField "themeConfig" = none := by
    rw [hd4, migrateFrom7To8_getField_ne _ _ (by decide) (by decide)]; exact h1tc
  have h4meta : d4.getField "_metadata" = some (.obj mfs3) := by
    rw [hd4, migrateFrom7To8_getField_ne _ _ (by decide) (by decide)]; exact h1meta
  set d6 := migrateFrom9To10 d4 with hd6
  have h6tc : d6.getField "themeConfig" = some (.arr []) :=
    migrateFrom9To10_sets d4 h4obj h4tc
  have h6cm : d6.getField "characterMemories" = some (.arr []) := by
    rw [hd6, migrateFrom9To10_getField_ne _ _ (by decide)]; exact h4cm
  have h6fs : d6.getField "fileStorage" = some (.arr []) := by
    rw [hd6, migrateFrom9To10_getField_ne _ _ (by decide)]; exact h4set.1
  have h6fr : d6.getField "fileReferences" = some (.arr []) := by
    rw [hd6, migrateFrom9To10_getField_ne _ _ (by decide)]; exact h4set.2
  have h6meta : d6.getField "_metadata" = some (.obj mfs3) := by
    rw [hd6, migrateFrom9To10_getField_ne _ _ (by decide)]; exact h4meta
  set d8 := migrateFrom11To12 d6 with hd8
  have h8cm : d8.getField "characterMemories" = some (.arr []) := by
    rw [hd8, migrateFrom11To12_getField_ne _ _ (by decide)]; exact h6cm
  have h8fs : d8.getField "fileStorage" = some (.arr []) := by
    rw [hd8, migrateFrom11To12_getField_ne _ _ (by decide)]; exact h6fs
  have h8fr : d8.getField "fileReferences" = some (.arr []) := by
    rw [hd8, migrateFrom11To12_getField_ne _ _ (by decide)]; exact h6fr
  have h8tc : d8.getField "themeConfig" = some (.arr []) := by
    rw [hd8, migrateFrom11To12_getField_ne _ _ (by decide)]; exact h6tc
  have h8meta : d8.getField "_metadata" = some (.obj mfs3) := by
    rw [hd8, migrateFrom11To12_getField_ne _ _ (by decide)]; exact h6meta
  refine ⟨_, _, hred, h8cm, h8fs, h8fr, h8tc, mfs3, h8meta, ?_, ?_⟩
  · rw [hm3, alistLookup_set]
    simp only [if_neg (by decide : ¬ ("originalVersion" : String) = "version")]
    rw [alistLookup_set]
    simp only [if_neg (by decide : ¬ ("migrationTime" : String) = "version")]
    rw [alistLookup_set]
    simp
  · rw [hm3, alistLookup_set]
    simp

theorem fieldIsEmptyArr_of (d : JVal) (k : String)
    (h : d.getField k = some (.arr [])) : fieldIsEmptyArr d k = true := by
  unfold fieldIsEmptyArr
  rw [h]

/-- C1 counterexample: a version-4 snapshot that lacks fileStorage and
characterMemories but carries a non-empty fileReferences collection is
migrated with that collection intact, so fileReferences is not the empty
array the claim asserts for every such snapshot. -/
theorem claim1_counterexample :
    ∃ st' d', migrateData noFaults "T" emptyDB snapV4WithRefs = .ok (st', d') ∧
      d'.getField "fileReferences" ≠ some (.arr []) := by
  refine ⟨_, _, rfl, fun h => ?_⟩
  exact absurd (fieldIsEmptyArr_of _ _ h) (by decide)

/-- Witness for C1: the bare version-4 snapshot satisfies every hypothesis
of the amended claim and migrates to the asserted shape. -/
theorem claim1_witness :
    ∃ st' d', migrateData noFaults "T" emptyDB snapV4 = .ok (st', d') ∧
      d'.getField "characterMemories" = some (.arr []) ∧
      d'.getField "fileStorage" = some (.arr []) ∧
      d'.getField "fileReferences" = some (.arr []) ∧
      d'.getField "themeConfig" = some (.arr []) ∧
      ∃ mfs', d'.getField "_metadata" = some (.obj mfs') ∧
        alistLookup mfs' "version" = some (.num 14) ∧
        alistLookup mfs' "originalVersion" = some (.num 4) :=
  claim1_theorem noFaults "T" emptyDB snapV4 [("version", .num 4)]
    rfl rfl rfl rfl rfl rfl

theorem getStore_setStore (st : DBState) (n m : String) (recs : StoreRecs) :
    (st.setStore n recs).getStore m =
      if n = m then recs else st.getStore m := by
  unfold DBState.setStore DBState.getStore
  simp only [alistLookup_set]
  split <;> simp

theorem usageFrame_refl (st : DBState) : UsageFrame st st :=
  ⟨fun _ _ => rfl, rfl⟩

theorem usageFrame_trans {a b c : DBState} (h1 : UsageFrame a b)
    (h2 : UsageFrame b c) : UsageFrame a c :=
  ⟨fun n hn => (h2.1 n hn).trans (h1.1 n hn), h2.2.trans h1.2⟩

theorem dbPut_usage_frame (f : Faults) (st : DBState) (item : JVal)
    (st' : DBState) (h : dbPut f st "imageUsageMetadata" item = .ok st') :
    UsageFrame st st' := by
  unfold dbPut at h
  cases hf : f.onPut "imageUsageMetadata" item <;> rw [hf] at h
  case some e => exact absurd h (by simp)
  case none =>
      cases hp : putRecord (keyPathOf "imageUsageMetadata")
          (isAutoIncrement "imageUsageMetadata")
          (st.getStore "imageUsageMetadata") item <;> rw [hp] at h
      · exact absurd h (by simp)
      · cases h
        refine ⟨fun n hn => ?_, rfl⟩
        rw [getStore_setStore]
        exact if_neg (fun hh => hn hh.symm)

theorem setImageUsageMetadata_frame (f : Faults) (now : String)
    (st : DBState) (fid ut meta : JVal) (st' : DBState)
    (h : setImageUsageMetadata f now st fid ut meta = .ok st') :
    UsageFrame st st' :=
  dbPut_usage_frame f st _ st' h

theorem foldlM_usage_frame {α : Type}
    (step : DBState → α → Except (String × DBState) DBState)
    (hok : ∀ s a s', step s a = .ok s' → UsageFrame s s')
    (herr : ∀ s a e sp, step s a = .error (e, sp) → UsageFrame s sp)
    (l : List α) (s : DBState) :
    (∀ s', l.foldlM step s = .ok s' → UsageFrame s s') ∧
    (∀ e sp, l.foldlM step s = .error (e, sp) → UsageFrame s sp) := by
  induction l generalizing s with
  | nil =>
      constructor
      · intro s' h
        simp only [List.foldlM_nil] at h
        cases h
        exact usageFrame_refl s
      · intro e sp h
        simp only [List.foldlM_nil] at h
        exact absurd h (by simp [pure, Except.pure])
  | cons a rest ih =>
      constructor
      · intro s' h
        rw [List.foldlM_cons] at h
        cases hs : step s a <;> rw [hs] at h
        case error p =>
            exact absurd h (by simp [Bind.bind, Except.bind])
        case ok s1 =>
            simp only [Bind.bind, Except.bind] at h
            exact usageFrame_trans (hok s a s1 hs) ((ih s1).1 s' h)
      · intro e sp h
        rw [List.foldlM_cons] at h
        cases hs : step s a <;> rw [hs] at h
        case error p =>
            obtain ⟨e', sp'⟩ := p
            simp only [Bind.bind, Except.bind] at h
            cases h
            exact herr s a _ _ hs
        case ok s1 =>
            simp only [Bind.bind, Except.bind] at h
            exact usageFrame_trans (hok s a s1 hs) ((ih s1).2 e sp h)

theorem emojiBackfillStep_frame_ok (f : Faults) (now : String) (d : JVal)
    (s : DBState) (emoji : JVal) (s' : DBState)
    (h : emojiBackfillStep f now d s emoji = .ok s') : UsageFrame s s' := by
  unfold emojiBackfillStep at h
  dsimp only at h
  split at h
  · split at h
    · split at h
      · split at h
        · split at h
          · cases h
            exact setImageUsageMetadata_frame f now s _ _ _ s' (by assumption)
          · exact absurd h (by simp)
        · cases h
          exact usageFrame_refl _
      · cases h
        exact usageFrame_refl _
    · exact absurd h (by simp)
  · cases h
    exact usageFrame_refl _

theorem emojiBackfillStep_frame_err (f : Faults) (now : String) (d : JVal)
    (s : DBState) (emoji : JVal) (e : String) (sp : DBState)
    (h : emojiBackfillStep f now d s emoji = .error (e, sp)) :
    UsageFrame s sp := by
  unfold emojiBackfillStep at h
  dsimp only at h
  split at h
  · split at h
    · split at h
      · split at h
        · split at h
          · exact absurd h (by simp)
          · cases h
            exact usageFrame_refl _
        · exact absurd h (by simp)
      · exact absurd h (by simp)
    · cases h
      exact usageFrame_refl _
  · exact absurd h (by simp)

theorem momentBackfillStep_frame_ok (f : Faults) (now : String)
    (s : DBState) (moment : JVal) (s' : DBState)
    (h : momentBackfillStep f now s moment = .ok s') : UsageFrame s s' := by
  unfold momentBackfillStep at h
  split at h
  case h_1 ids heq =>
      split at h
      · refine (foldlM_usage_frame _ ?_ ?_ _ s).1 s' h
        · intro s1 p s2 hp
          split at hp
          · cases hp
            exact setImageUsageMetadata_frame f now s1 _ _ _ s2 (by assumption)
          · exact absurd hp (by simp)
        · intro s1 p e sp hp
          split at hp
          · exact absurd hp (by simp)
          · cases hp
            exact usageFrame_refl _
      · cases h
        exact usageFrame_refl _
  case h_2 =>
      cases h
      exact usageFrame_refl _

theorem momentBackfillStep_frame_err (f : Faults) (now : String)
    (s : DBState) (moment : JVal) (e : String) (sp : DBState)
    (h : momentBackfillStep f now s moment = .error (e, sp)) :
    UsageFrame s sp := by
  unfold momentBackfillStep at h
  split at h
  case h_1 ids heq =>
      split at h
      · refine (foldlM_usage_frame _ ?_ ?_ _ s).2 e sp h
        · intro s1 p s2 hp
          split at hp
          · cases hp
            exact setImageUsageMetadata_frame f now s1 _ _ _ s2 (by assumption)
          · exact absurd hp (by simp)
        · intro s1 p e1 sp1 hp
          split at hp
          · exact absurd hp (by simp)
          · cases hp
            exact usageFrame_refl _
      · exact absurd h (by simp)
  case h_2 =>
      exact absurd h (by simp)

theorem emojiBackfillLoop_frame (f : Faults) (now : String) (d : JVal)
    (s : DBState) :
    (∀ s', emojiBackfillLoop f now d s = .ok s' → UsageFrame s s') ∧
    (∀ e sp, emojiBackfillLoop f now d s = .error (e, sp) →
      UsageFrame s sp) := by
  unfold emojiBackfillLoop
  constructor
  · intro s' h
    split at h
    · split at h
      · exact (foldlM_usage_frame _
          (fun a b c => emojiBackfillStep_frame_ok f now d a b c)
          (fun a b c d' => emojiBackfillStep_frame_err f now d a b c d') _ s).1
          s' h
      · cases h
        exact usageFrame_refl _
    · cases h
      exact usageFrame_refl _
  · intro e sp h
    split at h
    · split at h
      · exact (foldlM_usage_frame _
          (fun a b c => emojiBackfillStep_frame_ok f now d a b c)
          (fun a b c d' => emojiBackfillStep_frame_err f now d a b c d') _ s).2
          e sp h
      · exact absurd h (by simp [pure, Except.pure])
    · exact absurd h (by simp [pure, Except.pure])

theorem momentBackfillLoop_frame (f : Faults) (now : String) (d : JVal)
    (s : DBState) :
    (∀ s', momentBackfillLoop f now d s = .ok s' → UsageFrame s s') ∧
    (∀ e sp, momentBackfillLoop f now d s = .error (e, sp) →
      UsageFrame s sp) := by
  unfold momentBackfillLoop
  constructor
  · intro s' h
    split at h
    · split at h
      · exact (foldlM_usage_frame _
          (fun a b c => momentBackfillStep_frame_ok f now a b c)
          (fun a b c d' => momentBackfillStep_frame_err f now a b c d') _ s).1
          s' h
      · cases h
        exact usageFrame_refl _
    · cases h
      exact usageFrame_refl _
  · intro e sp h
    split at h
    · split at h
      · exact (foldlM_usage_frame _
          (fun a b c => momentBackfillStep_frame_ok f now a b c)
          (fun a b c d' => momentBackfillStep_frame_err f now a b c d') _ s).2
          e sp h
      · exact absurd h (by simp [pure, Except.pure])
    · exact absurd h (by simp [pure, Except.pure])

theorem migrateFrom13To14_frame (f : Faults) (now : String) (st : DBState)
    (d : JVal) : UsageFrame st (migrateFrom13To14 f now st d) := by
  unfold migrateFrom13To14
  cases h1 : emojiBackfillLoop f now d st with
  | error p =>
      obtain ⟨e, sp⟩ := p
      simp only [Bind.bind, Except.bind]
      exact (emojiBackfillLoop_frame f now d st).2 e sp h1
  | ok st1 =>
      have hf1 := (emojiBackfillLoop_frame f now d st).1 st1 h1
      simp only [Bind.bind, Except.bind]
      cases h2 : momentBackfillLoop f now d st1 with
      | error p =>
          obtain ⟨e, sp⟩ := p
          exact usageFrame_trans hf1
            ((momentBackfillLoop_frame f now d st1).2 e sp h2)
      | ok st2 =>
          exact usageFrame_trans hf1
            ((momentBackfillLoop_frame f now d st1).1 st2 h2)

/-- C2 (amended): the data-migration pipeline transforms an in-memory deep
copy of the snapshot, and the only live object store it ever touches is
imageUsageMetadata, which the 13-to-14 step back-fills with derived
usage-classification records through live writes; every other store and
the URL cache are left unchanged, a pipeline failure (which can only
happen before the back-fill) carries the live state untouched, and
back-fill failures are caught and logged rather than failing the
migration, which always succeeds on a snapshot whose metadata is an
object. -/
theorem claim2_theorem (f : Faults) (now : String) (st : DBState)
    (d : JVal) :
    (∀ e st_e, migrateData f now st d = .error (e, st_e) → st_e = st) ∧
    (∀ st' d', migrateData f now st d = .ok (st', d') → UsageFrame st st') ∧
    (∀ mfs, d.getField "_metadata" = some (.obj mfs) →
      ∃ st' d', migrateData f now st d = .ok (st', d')) := by
  refine ⟨?_, ?_, ?_⟩
  · intro e st_e h
    cases hmd : d.getField "_metadata" with
    | none =>
        simp only [migrateData, hmd] at h
        cases h
        rfl
    | some v =>
        cases v <;> simp only [migrateData, hmd] at h
        case obj mfs =>
            split at h <;> exact Except.noConfusion h
        all_goals (cases h; rfl)
  · intro st' d' h
    cases hmd : d.getField "_metadata" with
    | none =>
        simp only [migrateData, hmd] at h
        exact Except.noConfusion h
    | some v =>
        cases v <;> simp only [migrateData, hmd] at h
        case obj mfs =>
            split at h
            · cases h
              exact migrateFrom13To14_frame f now st _
            · cases h
              exact usageFrame_refl st
        all_goals exact Except.noConfusion h
  · intro mfs hmd
    simp only [migrateData, hmd]
    split
    · exact ⟨_, _, rfl⟩
    · exact ⟨_, _, rfl⟩

/-- C2 counterexample: migrating a version-13 snapshot holding one moment
image writes a derived usage record into the live imageUsageMetadata
store, so the pipeline does not leave every live object store unchanged. -/
theorem claim2_counterexample :
    ∃ st' d', migrateData noFaults "T" emptyDB snapV13Moments =
        .ok (st', d') ∧
      st'.getStore "imageUsageMetadata" ≠
        emptyDB.getStore "imageUsageMetadata" := by
  refine ⟨_, _, rfl, fun h => ?_⟩
  exact absurd (congrArg List.length h) (by decide)

/-- Witness for C2: the pipeline succeeds on a concrete version-13
snapshot whose metadata is an object, back-fill included. -/
theorem claim2_witness :
    ∃ st' d', migrateData noFaults "T" emptyDB snapV13Moments =
      .ok (st', d') :=
  (claim2_theorem noFaults "T" emptyDB snapV13Moments).2.2
    [("version", .num 13)] rfl

theorem cleanupOneImage_counters (f : Faults)
    (acc : DBState × Nat × List (String × String)) (fid : String) :
    (cleanupOneImage f acc fid).2 =
      match cleanupStepFault f fid with
      | some e => (acc.2.1, acc.2.2 ++ [(fid, e)])
      | none => (acc.2.1 + 1, acc.2.2) := by
  obtain ⟨s, dc, errs⟩ := acc
  cases h1 : f.onDelete "fileStorage" (.str fid) with
  | some e =>
      simp [cleanupOneImage, cleanupStepFault, deleteFile, dbDelete, h1]
  | none =>
      cases h2 : f.onDelete "imageUsageMetadata" (.str fid) with
      | some e =>
          simp [cleanupOneImage, cleanupStepFault, deleteFile, dbDelete,
            h1, h2]
      | none =>
          cases h3 : f.onCursor fid with
          | some e =>
              simp [cleanupOneImage, cleanupStepFault, deleteFile, dbDelete,
                cleanupFileReferences, h1, h2, h3]
          | none =>
              simp [cleanupOneImage, cleanupStepFault, deleteFile, dbDelete,
                cleanupFileReferences, h1, h2, h3]

theorem cleanupFold_spec (f : Faults) (fileIds : List String) :
    ∀ (s : DBState) (dc : Nat) (errs : List (String × String)),
      (fileIds.foldl (cleanupOneImage f) (s, dc, errs)).2 =
        (dc + (fileIds.filter
                (fun id => (cleanupStepFault f id).isNone)).length,
         errs ++ fileIds.filterMap
                (fun id => (cleanupStepFault f id).map (fun e => (id, e)))) := by
  induction fileIds with
  | nil => intro s dc errs; simp
  | cons a rest ih =>
      intro s dc errs
      rw [List.foldl_cons]
      have ihx := ih (cleanupOneImage f (s, dc, errs) a).1
        (cleanupOneImage f (s, dc, errs) a).2.1
        (cleanupOneImage f (s, dc, errs) a).2.2
      rw [show ((cleanupOneImage f (s, dc, errs) a).1,
            (cleanupOneImage f (s, dc, errs) a).2.1,
            (cleanupOneImage f (s, dc, errs) a).2.2) =
          cleanupOneImage f (s, dc, errs) a from rfl] at ihx
      rw [ihx]
      have hstep := cleanupOneImage_counters f (s, dc, errs) a
      cases hf : cleanupStepFault f a with
      | some e =>
          rw [hf] at hstep
          rw [show (cleanupOneImage f (s, dc, errs) a).2.1 =
                ((cleanupOneImage f (s, dc, errs) a).2).1 from rfl,
              show (cleanupOneImage f (s, dc, errs) a).2.2 =
                ((cleanupOneImage f (s, dc, errs) a).2).2 from rfl,
              hstep]
          simp [List.filter_cons, List.filterMap_cons, hf]
      | none =>
          rw [hf] at hstep
          rw [show (cleanupOneImage f (s, dc, errs) a).2.1 =
                ((cleanupOneImage f (s, dc, errs) a).2).1 from rfl,
              show (cleanupOneImage f (s, dc, errs) a).2.2 =
                ((cleanupOneImage f (s, dc, errs) a).2).2 from rfl,
              hstep]
          simp [List.filter_cons, List.filterMap_cons, hf]
          omega

/-- C3 (amended): cleanupSelectedImages is best-effort and sequential: it
reports the full request count, its error list holds exactly the ids whose
engine operation failed (with the surfaced message), and its deleted count
is exactly the number of ids whose three deletions all succeeded, so one
id's failure never stops the processing of the others.  Because the keyed
delete succeeds on an absent key, an id that was never stored is counted
as deleted, not as an error: with a fault-free engine the call over
[a, b, missing] returns deletedCount 3, totalRequested 3 and no errors. -/
theorem claim3_theorem (f : Faults) (st : DBState)
    (fileIds : List String) (hne : fileIds ≠ []) :
    (cleanupSelectedImages f st fileIds).2.totalRequested =
      some fileIds.length ∧
    (cleanupSelectedImages f st fileIds).2.deletedCount =
      (fileIds.filter (fun id => (cleanupStepFault f id).isNone)).length ∧
    (cleanupSelectedImages f st fileIds).2.errors =
      fileIds.filterMap
        (fun id => (cleanupStepFault f id).map (fun e => (id, e))) := by
  cases fileIds with
  | nil => exact absurd rfl hne
  | cons a rest =>
      have hfold := cleanupFold_spec f (a :: rest) st 0 []
      unfold cleanupSelectedImages
      refine ⟨rfl, ?_, ?_⟩
      · show ((a :: rest).foldl (cleanupOneImage f) (st, 0, [])).2.1 = _
        rw [show ((a :: rest).foldl (cleanupOneImage f) (st, 0, [])).2.1 =
            (((a :: rest).foldl (cleanupOneImage f) (st, 0, [])).2).1 from rfl,
          hfold]
        simp
      · show ((a :: rest).foldl (cleanupOneImage f) (st, 0, [])).2.2 = _
        rw [show ((a :: rest).foldl (cleanupOneImage f) (st, 0, [])).2.2 =
            (((a :: rest).foldl (cleanupOneImage f) (st, 0, [])).2).2 from rfl,
          hfold]
        simp

/-- C3 counterexample: with blobs a and b stored and missing never stored,
cleanupSelectedImages([a, b, missing]) returns deletedCount 3 and an empty
error list, not the claimed deletedCount 2 with exactly one error, because
the keyed delete succeeds on the absent key. -/
theorem claim3_counterexample :
    (cleanupSelectedImages noFaults cleanupDemoDB
       ["a", "b", "missing"]).2.deletedCount ≠ 2 ∧
    (cleanupSelectedImages noFaults cleanupDemoDB
       ["a", "b", "missing"]).2.errors.length ≠ 1 := by
  constructor <;> decide

/-- Witness for C3: the amended claim evaluated on the stored blobs a and
b plus a missing id, under the fault-free engine. -/
theorem claim3_witness :
    (cleanupSelectedImages noFaults cleanupDemoDB
       ["a", "b", "missing"]).2.totalRequested =
      some (["a", "b", "missing"] : List String).length ∧
    (cleanupSelectedImages noFaults cleanupDemoDB
       ["a", "b", "missing"]).2.deletedCount =
      ((["a", "b", "missing"] : List String).filter
        (fun id => (cleanupStepFault noFaults id).isNone)).length ∧
    (cleanupSelectedImages noFaults cleanupDemoDB
       ["a", "b", "missing"]).2.errors =
      (["a", "b", "missing"] : List String).filterMap
        (fun id => (cleanupStepFault noFaults id).map (fun e => (id, e))) :=
  claim3_theorem noFaults cleanupDemoDB ["a", "b", "missing"] (by decide)

theorem recsDelete_idem (r : StoreRecs) (k : DBKey) :
    recsDelete (recsDelete r k) k = recsDelete r k := by
  induction r with
  | nil => rfl
  | cons p rest ih =>
      obtain ⟨a, b⟩ := p
      by_cases h : a = k
      · simp [recsDelete, h, ih]
      · simp [recsDelete, h, ih]

theorem alistSet_set {α : Type} (l : List (String × α)) (k : String)
    (v w : α) : alistSet (alistSet l k v) k w = alistSet l k w := by
  induction l with
  | nil => simp [alistSet]
  | cons p rest ih =>
      obtain ⟨a, b⟩ := p
      by_cases h : a = k
      · simp [alistSet, h]
      · simp [alistSet, h, ih]

theorem alistRemove_idem {α : Type} (l : List (String × α)) (k : String) :
    alistRemove (alistRemove l k) k = alistRemove l k := by
  induction l with
  | nil => rfl
  | cons p rest ih =>
      obtain ⟨a, b⟩ := p
      by_cases h : a = k
      · simp [alistRemove, h, ih]
      · simp [alistRemove, h, ih]

theorem deleteFile_noFaults (s : DBState) (fid : String) :
    deleteFile noFaults s fid =
      .ok ⟨alistSet s.stores "fileStorage"
             (recsDelete (s.getStore "fileStorage") (.str fid)),
           alistRemove s.urlCache fid⟩ := rfl

/-- C9: deleteFile always resolves, also when no FileBlobRecord with the
given fileId exists (the keyed delete succeeds on an absent key), and it
is idempotent: a second deleteFile on the same id succeeds and leaves the
state of the first call unchanged. -/
theorem claim9_theorem (st : DBState) (fileId : String) :
    ∃ st', deleteFile noFaults st fileId = .ok st' ∧
      deleteFile noFaults st' fileId = .ok st' := by
  refine ⟨_, deleteFile_noFaults st fileId, ?_⟩
  rw [deleteFile_noFaults]
  have hget : (DBState.mk
      (alistSet st.stores "fileStorage"
        (recsDelete (st.getStore "fileStorage") (.str fileId)))
      (alistRemove st.urlCache fileId)).getStore "fileStorage" =
      recsDelete (st.getStore "fileStorage") (.str fileId) := by
    show (alistLookup (alistSet st.stores "fileStorage" _)
      "fileStorage").getD [] = _
    rw [alistLookup_set]
    simp
  rw [hget, recsDelete_idem]
  show Except.ok
      (DBState.mk (alistSet (alistSet st.stores "fileStorage" _)
        "fileStorage" _) (alistRemove (alistRemove st.urlCache fileId) fileId))
    = _
  rw [alistSet_set, alistRemove_idem]

theorem initWave_tail (xs : List Nat) :
    ∀ (s : InitSys), s.ready = false → s.inflight = true →
      xs.foldl callInit s = { s with waiters := s.waiters ++ xs } := by
  induction xs with
  | nil => intro s _ _; simp
  | cons x rest ih =>
      intro s hr hi
      rw [List.foldl_cons]
      have hstep : callInit s x = { s with waiters := s.waiters ++ [x] } := by
        unfold callInit
        rw [hr]
        cases s.conn <;> simp [hi]
      rw [hstep, ih _ (by simp [hr]) (by simp [hi])]
      simp

theorem initWave_cons (x : Nat) (xs : List Nat) :
    initWave (x :: xs) = ⟨false, none, true, x :: xs, 1, 0, []⟩ := by
  unfold initWave
  rw [List.foldl_cons]
  have hfirst : callInit initialSys x =
      ⟨false, none, true, [x], 1, 0, []⟩ := rfl
  rw [hfirst, initWave_tail xs _ rfl rfl]
  simp

/-- C4: init() is idempotent and coalesces concurrent callers: with a
ready connection every call returns it directly; any wave of calls issued
before the first resolves starts exactly one physical open and parks every
caller on the same pending promise, so the structural-upgrade callback
runs at most once for the wave; on success all callers of the wave resolve
to the identical connection, and on failure the in-flight state is
cleared, the failure propagates to every caller of the wave, and the next
call starts a fresh open. -/
theorem claim4_theorem (c : Nat) (x : Nat) (xs : List Nat) (u : Bool)
    (y : Nat) :
    (∀ (s : InitSys) (z : Nat), s.ready = true → s.conn = some c →
      callInit s z = { s with results := s.results ++ [(z, .ok c)] }) ∧
    initWave (x :: xs) = ⟨false, none, true, x :: xs, 1, 0, []⟩ ∧
    resolveInit (initWave (x :: xs)) (.ok c) u =
      ⟨true, some c, false, [], 1, if u then 1 else 0,
       (x :: xs).map (fun w => (w, .ok c))⟩ ∧
    (resolveInit (initWave (x :: xs)) (.ok c) u).upgradeRuns ≤ 1 ∧
    resolveInit (initWave (x :: xs)) (.error ()) u =
      ⟨false, none, false, [], 1, if u then 1 else 0,
       (x :: xs).map (fun w => (w, .error ()))⟩ ∧
    (callInit (resolveInit (initWave (x :: xs)) (.error ()) u) y).opens =
      2 ∧
    (callInit (resolveInit (initWave (x :: xs)) (.error ()) u) y).inflight
      = true := by
  refine ⟨?_, initWave_cons x xs, ?_, ?_, ?_, ?_, ?_⟩
  · intro s z hr hc
    unfold callInit
    rw [hr, hc]
  · rw [initWave_cons]
    cases u <;> rfl
  · rw [initWave_cons]
    cases u <;> simp [resolveInit]
  · rw [initWave_cons]
    cases u <;> rfl
  · rw [initWave_cons]
    cases u <;> rfl
  · rw [initWave_cons]
    cases u <;> rfl

/-- Witness for C4: a three-caller wave against the initial state, with
the upgrade callback having run during the open. -/
theorem claim4_witness :
    (∀ (s : InitSys) (z : Nat), s.ready = true → s.conn = some 7 →
      callInit s z = { s with results := s.results ++ [(z, .ok 7)] }) ∧
    initWave [0, 1, 2] = ⟨false, none, true, [0, 1, 2], 1, 0, []⟩ ∧
    resolveInit (initWave [0, 1, 2]) (.ok 7) true =
      ⟨true, some 7, false, [], 1, if true then 1 else 0,
       ([0, 1, 2] : List Nat).map (fun w => (w, .ok 7))⟩ ∧
    (resolveInit (initWave [0, 1, 2]) (.ok 7) true).upgradeRuns ≤ 1 ∧
    resolveInit (initWave [0, 1, 2]) (.error ()) true =
      ⟨false, none, false, [], 1, if true then 1 else 0,
       ([0, 1, 2] : List Nat).map (fun w => (w, .error ()))⟩ ∧
    (callInit (resolveInit (initWave [0, 1, 2]) (.error ()) true) 3).opens
      = 2 ∧
    (callInit (resolveInit (initWave [0, 1, 2]) (.error ()) true)
      3).inflight = true :=
  claim4_theorem 7 0 [1, 2] true 3

/-- C5 (refuted): importStore can resolve only when every record of the
batch inserted, so the tolerant skip accounting the claim describes is
unreachable: the skipped and error counters of a resolved import are
always zero; under non-overwrite, a record whose key is already present
makes the import reject with the ConstraintError and roll the batch back
(the contents carried by the error are the original ones); and a first
insertion of a keyed record followed by a second identical non-overwrite
importing of it rejects instead of reporting skipped equal to total. -/
theorem claim5_theorem :
    (∀ (txf : Option String) (kp : String) (ai : Bool) (recs : StoreRecs)
        (data : List JVal) (ov : Bool) (c' : StoreRecs)
        (r : ImportStoreResult),
      importStore txf kp ai recs data ov = .ok (c', r) →
      r.skipped = 0 ∧ r.errors = 0) ∧
    (∀ (kp : String) (ai : Bool) (recs : StoreRecs) (x kv : JVal)
        (k : DBKey),
      x.getField kp = some kv → toDBKey kv = some k →
      (recsLookup recs k).isSome = true →
      importStore none kp ai recs [x] false =
        .error ("ConstraintError", recs)) ∧
    (∃ c1 r1,
      importStore none "id" false [] [.obj [("id", .str "c1")]] false =
        .ok (c1, r1) ∧ r1.added = 1 ∧
      importStore none "id" false c1 [.obj [("id", .str "c1")]] false =
        .error ("ConstraintError", c1)) := by
  refine ⟨?_, ?_, ⟨_, _, rfl, rfl, rfl⟩⟩
  · intro txf kp ai recs data ov c' r h
    cases txf with
    | some e => exact Except.noConfusion h
    | none =>
        unfold importStore at h
        dsimp only at h
        split at h
        · split at h
          · exact Except.noConfusion h
          · cases h
            exact ⟨rfl, rfl⟩
        · split at h
          · exact Except.noConfusion h
          · split at h
            · exact Except.noConfusion h
            · cases h
              exact ⟨rfl, rfl⟩
  · intro kp ai recs x kv k hgf htk hpres
    have hsk : syncKeyOk kp ai x = true := by
      simp [syncKeyOk, hgf, htk]
    have hq : queuedPrefix kp ai [x] = ([x], false) := by
      simp [queuedPrefix, hsk]
    have haddc : addRecord kp ai recs x = .constraintError := by
      unfold addRecord
      simp [hgf, htk, hpres]
    have haddn : addAll kp ai recs [x] = none := by
      unfold addAll
      rw [haddc]
    unfold importStore
    simp only [Bool.false_eq_true, if_false]
    rw [hq]
    dsimp only
    rw [haddn]
    rfl

/-- Witness for C5: the rejection clause at a concrete store that already
holds the record's key. -/
theorem claim5_witness :
    importStore none "id" false
        [(DBKey.str "c1", .obj [("id", .str "c1")])]
        [.obj [("id", .str "c1")]] false =
      .error ("ConstraintError",
        [(DBKey.str "c1", .obj [("id", .str "c1")])]) :=
  claim5_theorem.2.1 "id" false
    [(DBKey.str "c1", .obj [("id", .str "c1")])]
    (.obj [("id", .str "c1")]) (.str "c1") (.str "c1") rfl rfl rfl

/-- C7: importing a snapshot whose metadata version differs from the
target version 14, with validateVersion set and migration disabled, fails
with the version-mismatch error (wrapped by the outer catch), and the
error is raised before any store is cleared or any record written, so the
carried live state is exactly the input state. -/
theorem claim7_theorem (f : Faults) (now : String) (st : DBState)
    (d : JVal) (mfs : List (String × JVal)) (v : Int)
    (opts : ImportOptions)
    (hmeta : d.getField "_metadata" = some (.obj mfs))
    (hver : alistLookup mfs "version" = some (.num v))
    (hv : v ≠ 14)
    (hvv : opts.validateVersion = true)
    (hem : opts.enableMigration = false) :
    importDatabase f now st d opts =
      .error ("导入失败: 数据库版本不匹配。当前版本: 14, 导入版本: " ++
        toString v, st) := by
  have hobj : ∃ fs, d = .obj fs := by
    cases d <;> simp [JVal.getField] at hmeta ⊢
  obtain ⟨fs, rfl⟩ := hobj
  have hneq : versionNeq14 (JVal.obj mfs) = true := by
    simp [versionNeq14, JVal.getField, hver, hv]
  have hstr : jvalToStringOpt ((JVal.obj mfs).getField "version") =
      toString v := by
    simp [jvalToStringOpt, jvalToString, JVal.getField, hver]
  simp [importDatabase, importDatabaseInner, hmeta, JVal.truthy, hneq,
    hem, hvv, hstr, Bind.bind, Except.bind]
  rw [← String.append_assoc]
  congr 1

/-- Witness for C7: a version-7 snapshot imported with validateVersion and
migration disabled is rejected with the mismatch error and the carried
state is the untouched input database. -/
theorem claim7_witness :
    importDatabase noFaults "T" emptyDB snapV7
        ⟨false, true, none, false⟩ =
      .error ("导入失败: 数据库版本不匹配。当前版本: 14, 导入版本: " ++
        toString (7 : Int), emptyDB) :=
  claim7_theorem noFaults "T" emptyDB snapV7 [("version", .num 7)] 7
    ⟨false, true, none, false⟩ rfl rfl (by decide) rfl rfl

theorem importStoreStep_getStore_ne (f : Faults) (dd : JVal) (ov : Bool)
    (s : DBState) (rs : List (String × ImportStoreResult)) (n : String)
    (s' : DBState) (rs' : List (String × ImportStoreResult))
    (h : importStoreStep f dd ov (s, rs) n = .ok (s', rs'))
    (m : String) (hm : m ≠ n) : s'.getStore m = s.getStore m := by
  unfold importStoreStep at h
  dsimp only at h
  split at h
  · split at h
    · split at h
      · cases h
        rw [getStore_setStore]
        exact if_neg (fun hh => hm hh.symm)
      · exact Except.noConfusion h
    · exact Except.noConfusion h
  · cases h
    rfl

/-- C8: createFileURL never throws: it is a total function of the state
that can only touch the URL cache; a cached handle is returned as-is with
the state unchanged; with no cached handle, a missing file record yields
the empty handle; a stored payload that is no longer a Blob instance but
retains size and type metadata is used when its binary-capability methods
survive, producing a fresh cached handle; and when reconstruction is
impossible (no stream or arrayBuffer method) the empty handle is returned
with the state unchanged. -/
theorem claim8_theorem (st : DBState) (fileId : String) :
    ((createFileURL st fileId).2.stores = st.stores) ∧
    (∀ u, alistLookup st.urlCache fileId = some u →
      createFileURL st fileId = (u, st)) ∧
    (alistLookup st.urlCache fileId = none →
      recsLookup (st.getStore "fileStorage") (.str fileId) = none →
      createFileURL st fileId = ("", st)) ∧
    (∀ rec b, alistLookup st.urlCache fileId = none →
      recsLookup (st.getStore "fileStorage") (.str fileId) = some rec →
      rec.getField "blob" = some b → b.truthy = true →
      isRealBlobVal b = false → blobSizeDefined b = true →
      blobTypeDefined b = true → blobHasMethods b = true →
      createFileURL st fileId = (mkHandle fileId,
        { st with urlCache :=
            alistSet st.urlCache fileId (mkHandle fileId) })) ∧
    (∀ rec b, alistLookup st.urlCache fileId = none →
      recsLookup (st.getStore "fileStorage") (.str fileId) = some rec →
      rec.getField "blob" = some b → b.truthy = true →
      isRealBlobVal b = false → blobHasMethods b = false →
      createFileURL st fileId = ("", st)) := by
  refine ⟨?_, ?_, ?_, ?_, ?_⟩
  · unfold createFileURL
    cases hc : alistLookup st.urlCache fileId with
    | some u => rfl
    | none =>
        cases hb : createFileURLBody st fileId with
        | ok url => rfl
        | error e => rfl
  · intro u hu
    unfold createFileURL
    rw [hu]
  · intro hc hrec
    unfold createFileURL
    rw [hc]
    unfold createFileURLBody
    rw [hrec]
  · intro rec b hc hrec hblob htr hreal hsz hty hm
    unfold createFileURL
    rw [hc]
    unfold createFileURLBody
    rw [hrec]
    dsimp only
    rw [hblob]
    simp [htr, hreal, hsz, hty, hm]
  · intro rec b hc hrec hblob htr hreal hm
    unfold createFileURL
    rw [hc]
    unfold createFileURLBody
    rw [hrec]
    dsimp only
    rw [hblob]
    by_cases hst : (blobSizeDefined b && blobTypeDefined b) = true
    · simp [htr, hreal, hm, hst]
    · have hst' : (blobSizeDefined b && blobTypeDefined b) = false := by
        simpa using hst
      simp [htr, hreal, hst']

/-- Witness for C8: a cached handle is returned directly with the state
unchanged. -/
theorem claim8_witness :
    createFileURL cachedHandleDB "f1" = ("blob:f1", cachedHandleDB) :=
  (claim8_theorem cachedHandleDB "f1").2.1 "blob:f1" rfl

/-- C6 (code bug): a configuration record saved by
apiConfigManager.saveConfig keeps its credentials in the key and apiKeys
fields; exportStore's redaction deletes only literal apiKey and password
properties, so the exported apiSettings array still contains the secret
key, contradicting the spec's unconditional secret-stripping (and the
redaction comment in exportStore itself). -/
theorem claim6_theorem :
    ∃ st', saveConfig noFaults emptyDB (.str "default") cfgInput cfgKeys
        (.num 1700000000000) = .ok st' ∧
      ∃ out, exportStore st' "apiSettings" = [out] ∧
        out.getField "key" = some (.str "sk-secret") ∧
        out.getField "apiKeys" = some cfgKeys :=
  ⟨_, rfl, _, rfl, rfl, rfl⟩
